import Mathlib

/-!
# Verification of the Stillport Apps tracking-pixel server (`src/app.py`)

A shallow embedding of the tracking-pixel core of `app.py`: the event store
(`load_events` / `save_events`), the `/track` pixel endpoint, the `/events`
query endpoint, and the `/health` endpoint, together with proofs of the
specification claims about them.

Modelling conventions:
* The persisted document (`open_events.json`) is a `Doc`: it is either
  absent, unreadable/malformed (`corrupt`), or a well-formed JSON array of
  event records (`good`).  A document that parses as valid JSON which is
  *not* an array of event records is a further reachable state: the
  refined model `RawDoc` / `load_events_raw` covers it, because
  `load_events` catches only `JSONDecodeError`/`IOError` and returns such
  a parsed value unchanged (it is not coerced to a list).
* An event record is an `OpenEvent`. The fields `cid` and `ts` are
  `Option String` because a record read back from JSON may lack them;
  the handlers access them with `.get('cid', '')` / `.get('ts', '')`,
  embedded as `Option.getD _ ""`.
* Query parameters are `Option String` (absent = `none`); Flask's
  `request.args.get(k, '')` is embedded as `Option.getD _ ""`.
* The wall clock (`datetime.utcnow().isoformat() + 'Z'`) is passed in as a
  string parameter `now`.
* `save_events` swallows `IOError`; the flag `writeOk` says whether the
  write succeeds.  On failure the model keeps the previous document (no
  claim depends on the on-disk state after a failed write).
* Python string comparison `>` is code-point lexicographic, matching
  Lean's `<` on `String`.
-/

/-- One open event record, as stored in the JSON log.  `cid` and `ts` are
optional because an arbitrary record in the persisted array may lack them;
`get_events` reads them with a default of `""`. -/
structure OpenEvent where
  tid : String
  cid : Option String
  ts : Option String
  ip : String
  ua : String
deriving DecidableEq, Repr

/-- State of the persisted `open_events.json` document, restricted to the
states in which `json.load` either raises or yields an array of event
records.  The remaining reachable state — the file parses as valid JSON
that is not an array of event records — is covered by the refined model
`RawDoc` / `load_events_raw` below, since there `load_events` does not
produce a list at all. -/
inductive Doc where
  /-- `os.path.exists(EVENTS_FILE)` is false. -/
  | absent : Doc
  /-- The file exists but `json.load` raises `JSONDecodeError`/`IOError`. -/
  | corrupt : Doc
  /-- The file exists and parses as an array of event records. -/
  | good : List OpenEvent → Doc
deriving DecidableEq, Repr

/-- `load_events` (app.py lines 94–101) over `Doc`: return the parsed
array when the file exists and parses as one; return `[]` when the file is
absent or `json.load` raises.  See `load_events_raw` for the behavior on a
document parsing to a non-array JSON value. -/
def load_events : Doc → List OpenEvent
  | Doc.good l => l
  | _ => []

/-- `save_events` (app.py lines 103–108): write the full list back.  An
`IOError` is caught and only logged; `writeOk` records whether the write
succeeded.  A failed write leaves the previous document in the model. -/
def save_events (writeOk : Bool) (events : List OpenEvent) (doc : Doc) : Doc :=
  if writeOk then Doc.good events else doc

/-- A `/track` request: the two query parameters and the request metadata
the handler reads. -/
structure TrackRequest where
  tid : String
  cid : String
  xForwardedFor : Option String
  remoteAddr : String
  userAgent : Option String
deriving DecidableEq, Repr

/-- An HTTP response as produced by `Response(...)` in `track`. -/
structure HttpResponse where
  status : Nat
  body : List Nat
  mimetype : String
  headers : List (String × String)
deriving DecidableEq, Repr

/-- `PIXEL_GIF` (app.py lines 87–92): the fixed 43-byte 1×1 transparent
GIF, byte for byte. -/
def PIXEL_GIF : List Nat :=
  [0x47, 0x49, 0x46, 0x38, 0x39, 0x61, 0x01, 0x00, 0x01, 0x00, 0x80, 0x00, 0x00,
   0xff, 0xff, 0xff, 0x00, 0x00, 0x00, 0x21, 0xf9, 0x04, 0x00, 0x00, 0x00, 0x00,
   0x00, 0x2c, 0x00, 0x00, 0x00, 0x00, 0x01, 0x00, 0x01, 0x00, 0x00, 0x02, 0x02,
   0x44, 0x01, 0x00, 0x3b]

/-- The response built at app.py lines 126–129: status 200 (Flask default),
the pixel bytes, `image/gif`, and the three cache-defeating headers. -/
def pixelResponse : HttpResponse :=
  { status := 200
    body := PIXEL_GIF
    mimetype := "image/gif"
    headers :=
      [("Cache-Control", "no-store, no-cache, must-revalidate, max-age=0"),
       ("Pragma", "no-cache"),
       ("Expires", "0")] }

/-- The event record built at app.py lines 115–120 for a `/track` request:
`ip` prefers the `X-Forwarded-For` header over the remote address, `ua`
defaults to `""`. -/
def eventOf (req : TrackRequest) (now : String) : OpenEvent :=
  { tid := req.tid
    cid := some req.cid
    ts := some now
    ip := req.xForwardedFor.getD req.remoteAddr
    ua := req.userAgent.getD "" }

/-- `track` (app.py lines 110–129): if `tid` is non-empty, load the log,
append the new event and save; in every case return the pixel response.
Returns the response together with the new document state. -/
def track (req : TrackRequest) (now : String) (writeOk : Bool) (doc : Doc) :
    HttpResponse × Doc :=
  let newDoc :=
    if req.tid = "" then doc
    else save_events writeOk (load_events doc ++ [eventOf req now]) doc
  (pixelResponse, newDoc)

/-- Result of `get_events`: either the 403 error payload or the 200 JSON
array of events. -/
inductive EventsResult where
  | forbidden : String → EventsResult
  | ok : List OpenEvent → EventsResult
deriving DecidableEq, Repr

/-- Embedding of Python's `str.split(',')`: helper walking the characters,
keeping empty components. -/
def pySplitCommaAux : List Char → List Char → List String
  | [], acc => [String.mk acc.reverse]
  | c :: rest, acc =>
    if c = ',' then String.mk acc.reverse :: pySplitCommaAux rest []
    else pySplitCommaAux rest (c :: acc)

/-- Embedding of Python's `str.split(',')`: split on every comma, keeping
empty components; the empty string yields `[""]`. -/
def pySplitComma (s : String) : List String := pySplitCommaAux s.data []

/-- Parsing of the `cids` query parameter (app.py line 136): an absent or
empty parameter yields `[]`; otherwise the value is split on `','` with no
trimming of the components. -/
def parseCids (cidsParam : Option String) : List String :=
  match cidsParam with
  | none => []
  | some s => if s = "" then [] else pySplitComma s

/-- The two filter passes of `get_events` (app.py lines 140–143): when the
parsed `cids` list is non-empty keep events whose `cid` (default `""`) is a
member; when `since` is non-empty keep events whose `ts` (default `""`)
compares strictly greater than `since`. -/
def filterEvents (cids : List String) (since : String) (events : List OpenEvent) :
    List OpenEvent :=
  let e1 := if cids = [] then events
            else events.filter (fun e => (e.cid.getD "") ∈ cids)
  if since = "" then e1
  else e1.filter (fun e => since < e.ts.getD "")

/-- `get_events` (app.py lines 131–144): `apiKey` is the `TRACKER_KEY`
environment value (default `""`); a non-empty key that does not match the
`key` parameter yields 403; otherwise the loaded log is filtered. -/
def get_events (apiKey : String) (keyParam cidsParam sinceParam : Option String)
    (doc : Doc) : EventsResult :=
  if apiKey ≠ "" ∧ keyParam.getD "" ≠ apiKey then
    EventsResult.forbidden "Invalid API key"
  else
    EventsResult.ok
      (filterEvents (parseCids cidsParam) (sinceParam.getD "") (load_events doc))

/-- The JSON object returned by `/health`. -/
structure HealthPayload where
  status : String
  service : String
  events_count : Nat
  timestamp : String
deriving DecidableEq, Repr

/-- `health` (app.py lines 146–153): HTTP 200 with the four fixed fields;
`events_count` is the length of the loaded log. -/
def health (doc : Doc) (now : String) : Nat × HealthPayload :=
  (200,
   { status := "ok"
     service := "Stillport Apps Server"
     events_count := (load_events doc).length
     timestamp := now })

/-- The spec's description of the query filter as a single predicate: an
event passes iff (`cids` empty or its `cid` is a member) and (`since` empty
or its `ts` is strictly greater under lexicographic string order). -/
def matchesFilters (cids : List String) (since : String) (e : OpenEvent) : Bool :=
  (decide (cids = []) || decide ((e.cid.getD "") ∈ cids)) &&
  (decide (since = "") || decide (since < e.ts.getD ""))

/-- Whitespace-trimming of one component, as the spec's wording requires. -/
def specTrim (s : String) : String :=
  String.mk (((s.data.dropWhile Char.isWhitespace).reverse.dropWhile
    Char.isWhitespace).reverse)

/-- Modelled from the spec (§4.3): the spec says the comma-separated `cids`
components are whitespace-trimmed before membership testing; this is the
trimming variant of `parseCids`, used to compare against the source. -/
def parseCidsSpec (cidsParam : Option String) : List String :=
  match cidsParam with
  | none => []
  | some s => if s = "" then [] else (pySplitComma s).map specTrim

/-- The result of `json.load` on a document that parses: either an array
of event records, or any other JSON value (object, string, number,
boolean, null).  The non-array value is kept abstract as its serialized
text, since `load_events` never inspects it — it is returned unchanged. -/
inductive PyValue where
  | arr : List OpenEvent → PyValue
  | other : String → PyValue
deriving DecidableEq, Repr

/-- Refined state of the persisted `open_events.json` document, including
the state where the file holds valid JSON that is not an array of event
records. -/
inductive RawDoc where
  /-- `os.path.exists(EVENTS_FILE)` is false. -/
  | absent : RawDoc
  /-- Opening or reading the file raises `IOError`. -/
  | unreadable : RawDoc
  /-- `json.load` raises `JSONDecodeError`. -/
  | malformed : RawDoc
  /-- `json.load` succeeds and yields this value. -/
  | parsed : PyValue → RawDoc
deriving DecidableEq, Repr

/-- What `load_events` hands to its callers in the refined model: a list of
event records, or a parsed non-list JSON value passed through unchanged. -/
inductive LoadResult where
  | list : List OpenEvent → LoadResult
  | value : String → LoadResult
deriving DecidableEq, Repr

/-- Whether a load result is a list. -/
def LoadResult.isList : LoadResult → Bool
  | LoadResult.list _ => true
  | LoadResult.value _ => false

/-- `load_events` (app.py lines 94–101) over the refined document model:
the `except` clause catches only `JSONDecodeError` and `IOError`, so an
absent, unreadable or unparseable document yields `[]`, while a document
parsing to a non-array JSON value is returned as-is, not as a list. -/
def load_events_raw : RawDoc → LoadResult
  | RawDoc.absent => LoadResult.list []
  | RawDoc.unreadable => LoadResult.list []
  | RawDoc.malformed => LoadResult.list []
  | RawDoc.parsed (PyValue.arr l) => LoadResult.list l
  | RawDoc.parsed (PyValue.other v) => LoadResult.value v

/-- The `events.append(event)` step of `track` (app.py line 123) applied to
the loaded value: on a list it appends; on any other JSON value Python
raises `AttributeError`, which no handler catches. -/
def appendLoaded (e : OpenEvent) : LoadResult → Except String (List OpenEvent)
  | LoadResult.list l => Except.ok (l ++ [e])
  | LoadResult.value _ => Except.error "AttributeError"

/-- Concrete event records used in witnesses and counterexamples. -/
def cexEvent : OpenEvent :=
  { tid := "t1", cid := some "c1", ts := some "2024-01-01T00:00:00Z",
    ip := "10.0.0.1", ua := "ua" }

/-- An event record missing both its `cid` and its `ts` field. -/
def bareEvent : OpenEvent :=
  { tid := "t2", cid := none, ts := none, ip := "", ua := "" }

/-- The two filter passes of the code coincide with one pass of the spec's
combined predicate. -/
lemma filterEvents_eq_filter (cids : List String) (since : String)
    (events : List OpenEvent) :
    filterEvents cids since events = events.filter (matchesFilters cids since) := by
  unfold filterEvents matchesFilters
  by_cases h1 : cids = [] <;> by_cases h2 : since = "" <;>
    simp [h1, h2, List.filter_filter, Bool.and_comm]

/-- C1: the `/events` query filter returns exactly the subsequence of the
stored events, in stored (append) order, whose members pass both filters
(`cid` membership when `cids` is non-empty, `ts` strictly greater than
`since` lexicographically when `since` is non-empty); with both parameters
empty the full log is returned unchanged. -/
theorem spec_c1 (cids : List String) (since : String) (events : List OpenEvent) :
    filterEvents cids since events = events.filter (matchesFilters cids since)
    ∧ List.Sublist (filterEvents cids since events) events
    ∧ filterEvents [] "" events = events := by
  refine ⟨filterEvents_eq_filter cids since events, ?_, ?_⟩
  · rw [filterEvents_eq_filter]; exact List.filter_sublist events
  · simp [filterEvents]

/-- C2: on `/track` with non-empty `tid` and a successful write, the new
persisted document is the prior log with exactly the new event appended at
the end. -/
theorem spec_c2 (req : TrackRequest) (now : String) (L : List OpenEvent)
    (h : req.tid ≠ "") :
    (track req now true (Doc.good L)).2 = Doc.good (L ++ [eventOf req now]) := by
  simp [track, save_events, load_events, h]

/-- Witness for C2 at a concrete request and log. -/
theorem spec_c2_witness :
    ({ tid := "t1", cid := "c1", xForwardedFor := none, remoteAddr := "r",
       userAgent := none } : TrackRequest).tid ≠ ""
    ∧ (track { tid := "t1", cid := "c1", xForwardedFor := none,
               remoteAddr := "r", userAgent := none } "2024-01-02T03:04:05Z"
         true (Doc.good [cexEvent])).2
      = Doc.good [cexEvent,
          eventOf { tid := "t1", cid := "c1", xForwardedFor := none,
                    remoteAddr := "r", userAgent := none } "2024-01-02T03:04:05Z"] :=
  ⟨by decide,
   spec_c2 { tid := "t1", cid := "c1", xForwardedFor := none, remoteAddr := "r",
             userAgent := none } "2024-01-02T03:04:05Z" [cexEvent] (by decide)⟩

/-- C3, evaluated at the failing input: `load_events` yields `[]` on an
absent, unreadable or JSON-unparseable document, but on a document holding
the valid JSON value `3` — not an array of event records — it returns the
parsed value unchanged rather than an empty sequence, and the append step
of `/track` then raises `AttributeError` instead of receiving a
well-formed list. -/
theorem spec_c3 :
    load_events_raw RawDoc.absent = LoadResult.list []
    ∧ load_events_raw RawDoc.unreadable = LoadResult.list []
    ∧ load_events_raw RawDoc.malformed = LoadResult.list []
    ∧ (∀ l : List OpenEvent,
        load_events_raw (RawDoc.parsed (PyValue.arr l)) = LoadResult.list l)
    ∧ load_events_raw (RawDoc.parsed (PyValue.other "3")) = LoadResult.value "3"
    ∧ (load_events_raw (RawDoc.parsed (PyValue.other "3"))).isList = false
    ∧ ∀ e : OpenEvent,
        appendLoaded e (load_events_raw (RawDoc.parsed (PyValue.other "3")))
          = Except.error "AttributeError" :=
  ⟨rfl, rfl, rfl, fun _ => rfl, rfl, rfl, fun _ => rfl⟩

/-- C4: `/track` with an empty (or absent) `tid` returns the pixel response
and leaves the persisted document unchanged, for any `cid`, any clock value
and any write outcome. -/
theorem spec_c4 (req : TrackRequest) (now : String) (writeOk : Bool) (doc : Doc)
    (h : req.tid = "") :
    track req now writeOk doc = (pixelResponse, doc) := by
  simp [track, h]

/-- Witness for C4 at a concrete empty-`tid` request. -/
theorem spec_c4_witness :
    track { tid := "", cid := "camp1", xForwardedFor := some "1.2.3.4",
            remoteAddr := "r", userAgent := some "ua" } "2024-01-02T03:04:05Z"
        false (Doc.good [cexEvent])
      = (pixelResponse, Doc.good [cexEvent]) :=
  spec_c4 { tid := "", cid := "camp1", xForwardedFor := some "1.2.3.4",
            remoteAddr := "r", userAgent := some "ua" } "2024-01-02T03:04:05Z"
    false (Doc.good [cexEvent]) rfl

/-- C5: every `/track` request — whatever the parameters, the document
state and the write outcome — receives status 200, exactly the fixed pixel
bytes, content type `image/gif`, and the three cache-defeating headers. -/
theorem spec_c5 (req : TrackRequest) (now : String) (writeOk : Bool) (doc : Doc) :
    (track req now writeOk doc).1.status = 200
    ∧ (track req now writeOk doc).1.body = PIXEL_GIF
    ∧ (track req now writeOk doc).1.mimetype = "image/gif"
    ∧ (track req now writeOk doc).1.headers
      = [("Cache-Control", "no-store, no-cache, must-revalidate, max-age=0"),
         ("Pragma", "no-cache"),
         ("Expires", "0")] :=
  ⟨rfl, rfl, rfl, rfl⟩

/-- C6: when the configured API key is non-empty and the supplied `key`
parameter (default `""` when absent) differs from it, `/events` answers
with the 403 error payload and no event data; when no API key is
configured, every caller receives the filtered event data. -/
theorem spec_c6 (apiKey : String) (keyParam cidsParam sinceParam : Option String)
    (doc : Doc) :
    (apiKey ≠ "" → keyParam.getD "" ≠ apiKey →
      get_events apiKey keyParam cidsParam sinceParam doc
        = EventsResult.forbidden "Invalid API key")
    ∧ (apiKey = "" →
      get_events apiKey keyParam cidsParam sinceParam doc
        = EventsResult.ok (filterEvents (parseCids cidsParam)
            (sinceParam.getD "") (load_events doc))) := by
  constructor
  · intro h1 h2
    simp [get_events, h1, h2]
  · intro h
    simp [get_events, h]

/-- Witness for C6: a wrong (absent) key against a configured key is
rejected; with no configured key the data is returned. -/
theorem spec_c6_witness :
    get_events "secret" none none none (Doc.good [cexEvent])
      = EventsResult.forbidden "Invalid API key"
    ∧ get_events "" (some "anything") none none (Doc.good [cexEvent])
      = EventsResult.ok [cexEvent] :=
  ⟨(spec_c6 "secret" none none none (Doc.good [cexEvent])).1
      (by decide) (by decide),
   (spec_c6 "" (some "anything") none none (Doc.good [cexEvent])).2 rfl⟩

/-- C7 counterexample: the components of `cids` are NOT whitespace-trimmed
by the code.  With the stored event's `cid = "c1"` and `cids = " c1"`, the
code returns no events, while the trimming parse the claim describes would
return the event. -/
theorem spec_c7_cex :
    parseCids (some " c1") = [" c1"]
    ∧ parseCidsSpec (some " c1") = ["c1"]
    ∧ get_events "" none (some " c1") none (Doc.good [cexEvent])
      = EventsResult.ok []
    ∧ filterEvents (parseCidsSpec (some " c1")) "" [cexEvent] = [cexEvent] := by
  refine ⟨rfl, rfl, ?_, rfl⟩
  decide

/-- C7 amended: `cids` is parsed into a list of campaign IDs by splitting
on commas with each component taken verbatim (no trimming); an absent or
empty `cids` yields the empty list, meaning no campaign filter, and any
`cids` string parses without failing the request. -/
theorem spec_c7 (cidsParam sinceParam : Option String) (doc : Doc) :
    (cidsParam = none ∨ cidsParam = some "" →
      get_events "" none cidsParam sinceParam doc
        = EventsResult.ok (filterEvents [] (sinceParam.getD "")
            (load_events doc)))
    ∧ (∀ s, cidsParam = some s → s ≠ "" →
      get_events "" none cidsParam sinceParam doc
        = EventsResult.ok (filterEvents (pySplitComma s) (sinceParam.getD "")
            (load_events doc))) := by
  constructor
  · rintro (rfl | rfl) <;> simp [get_events, parseCids]
  · rintro s rfl hs
    simp [get_events, parseCids, hs]

/-- Witness for C7 amended: an absent `cids` imposes no filter; a non-empty
`cids` splits verbatim on commas. -/
theorem spec_c7_witness :
    get_events "" none none none (Doc.good [cexEvent])
      = EventsResult.ok (filterEvents [] "" (load_events (Doc.good [cexEvent])))
    ∧ get_events "" none (some "a, c1") none (Doc.good [cexEvent])
      = EventsResult.ok (filterEvents (pySplitComma "a, c1") ""
          (load_events (Doc.good [cexEvent]))) :=
  ⟨(spec_c7 none none (Doc.good [cexEvent])).1 (Or.inl rfl),
   (spec_c7 (some "a, c1") none (Doc.good [cexEvent])).2 "a, c1" rfl (by decide)⟩

/-- C8: `/health` answers 200 with exactly the four fields `status`,
`service`, `events_count` and `timestamp`, where `events_count` is the
number of events loadable from storage — 0 on an absent or corrupt
document. -/
theorem spec_c8 (doc : Doc) (now : String) :
    health doc now
      = (200, { status := "ok", service := "Stillport Apps Server",
                events_count := (load_events doc).length, timestamp := now })
    ∧ (health Doc.absent now).2.events_count = 0
    ∧ (health Doc.corrupt now).2.events_count = 0 :=
  ⟨rfl, rfl, rfl⟩

/-- C9: the `/events` filtering is total over arbitrary records: a record
missing its `cid` is filtered exactly as if its `cid` were `""`, and one
missing its `ts` exactly as if its `ts` were `""`. -/
theorem spec_c9 (cids : List String) (since : String) (e : OpenEvent) :
    (e.cid = none → matchesFilters cids since e
        = matchesFilters cids since { e with cid := some "" })
    ∧ (e.ts = none → matchesFilters cids since e
        = matchesFilters cids since { e with ts := some "" })
    ∧ filterEvents cids since [e]
        = if matchesFilters cids since e then [e] else [] := by
  refine ⟨?_, ?_, ?_⟩
  · intro hc
    simp [matchesFilters, hc]
  · intro ht
    simp [matchesFilters, ht]
  · rw [filterEvents_eq_filter]
    cases h : matchesFilters cids since e <;> simp [List.filter, h]

/-- Witness for C9 at a record lacking both fields. -/
theorem spec_c9_witness :
    matchesFilters ["c1"] "2024" bareEvent
      = matchesFilters ["c1"] "2024" { bareEvent with cid := some "" }
    ∧ matchesFilters ["c1"] "2024" bareEvent
      = matchesFilters ["c1"] "2024" { bareEvent with ts := some "" }
    ∧ filterEvents ["c1"] "2024" [bareEvent]
      = if matchesFilters ["c1"] "2024" bareEvent then [bareEvent] else [] :=
  ⟨(spec_c9 ["c1"] "2024" bareEvent).1 rfl,
   (spec_c9 ["c1"] "2024" bareEvent).2.1 rfl,
   (spec_c9 ["c1"] "2024" bareEvent).2.2⟩

/-- C10: any two `/track` requests receive identical HTTP responses —
status, body, mimetype and headers — regardless of parameters, document
state, clock or write outcome; the response reveals nothing about the
store. -/
theorem spec_c10 (req1 req2 : TrackRequest) (now1 now2 : String)
    (w1 w2 : Bool) (doc1 doc2 : Doc) :
    (track req1 now1 w1 doc1).1 = (track req2 now2 w2 doc2).1 := rfl
